import Mathlib

/-!
Shallow embedding of the concurrent CSV pipeline of this repository:
src/posts/parsing_csv_df_asyncio/parsing_csv_async.py and
src/posts/parsing_csv_df_asyncio/parsing_csv_sync.py.

Time is modelled in ticks, with 10000 ticks per second, so that the float
literals of the source (timeout=5, time.sleep(0.5)) and the 4-decimal
timing format of the codetiming Timer become exact natural-number
computations.  The external world (network, pandas) is an explicit
environment: each awaited operation has a duration and a result, fallible
operations return Except.
-/

def ticksPerSecond : Nat := 10000

/-- Embedding of the literal `timeout=5` (seconds) at parsing_csv_async.py line 67. -/
def timeoutTicks : Nat := 5 * ticksPerSecond

/-- Embedding of the literal `time.sleep(0.5)` at parsing_csv_async.py line 72 and
parsing_csv_sync.py line 60. -/
def delayTicks : Nat := ticksPerSecond / 2

/-- Python exceptions (all `Exception` subclasses, hence all caught by the
`except Exception` clauses of both parse_csv variants) that can arise in the
modelled steps: `asyncio.TimeoutError` from `asyncio.wait_for`, aiohttp or
requests transport failures, pandas parse failures, and the `IndexError`
that `dataframe.iloc[0, :5]` raises on a frame with zero rows. -/
inductive PyError where
  | timeoutError
  | transportError (msg : String)
  | parseError (msg : String)
  | indexError
deriving DecidableEq

/-- An awaitable operation of the outside world: it takes `duration` ticks
and then yields `result`. -/
structure AsyncOp (α : Type) where
  duration : Nat
  result : Except PyError α

/-- Result of `pd.read_csv`: a tabular record set with named columns. -/
structure Frame where
  headers : List String
  rows : List (List String)
deriving DecidableEq

/-- The external world of one run: what the network and the opaque CSV
parser do for each url.  `getOp` is the request/response-header phase
(`session.get(url)` in the async variant, the corresponding phase of
`requests.get(url)` in the sync one); `textOp` is the retrieval of the
payload text (`await response.text()` / `response.text`); `readCsv` is
`pd.read_csv` applied to the payload text and the parsing options. -/
structure Env where
  getOp : String → AsyncOp Unit
  textOp : String → AsyncOp String
  readCsv : String → List (String × String) → Except PyError Frame

/-- One emitted output line: an info log, a codetiming Timer report, or the
record written by `logging.exception` (which carries its message and the
caught exception as the traceback). -/
inductive LogLine where
  | info (msg : String)
  | timer (msg : String)
  | error (msg : String) (cause : PyError)
deriving DecidableEq

def msgOf : LogLine → String
  | .info m => m
  | .timer m => m
  | .error m _ => m

def isTimerB : LogLine → Bool
  | .timer _ => true
  | _ => false

def isErrorB : LogLine → Bool
  | .error _ _ => true
  | _ => false

/-- Four digits of a tick remainder below 10000: the decimal places produced
by the format `:.4f` of the Timer text at our tick granularity. -/
def pad4 (k : Nat) : String :=
  String.mk [Nat.digitChar (k / 1000 % 10), Nat.digitChar (k / 100 % 10),
             Nat.digitChar (k / 10 % 10), Nat.digitChar (k % 10)]

/-- Fixed-point rendering of a tick count as seconds with exactly four
decimal places, the shape the codetiming Timer prints for `:.4f`. -/
def format4 (t : Nat) : String :=
  Nat.repr (t / ticksPerSecond) ++ "." ++ pad4 (t % ticksPerSecond)

/-- Boolean infix-of test on lists, used for substring checks on rendered
log lines. -/
def listHasSub [BEq α] : List α → List α → Bool
  | _, [] => true
  | [], _ :: _ => false
  | a :: as, b :: bs => (List.isPrefixOf (b :: bs) (a :: as)) || listHasSub as (b :: bs)

/-- Substring test on strings. -/
def strHasSub (s pat : String) : Bool := listHasSub s.data pat.data

/-- Starts-with test on strings. -/
def strStarts (s pat : String) : Bool := List.isPrefixOf pat.data s.data

/-- First characters of the two strings exist and differ. -/
def firstCharNe (u p : String) : Bool :=
  match u.data, p.data with
  | c :: _, d :: _ => !(d == c)
  | _, _ => false

/-- Semantics of awaiting an operation with no timeout guard: the full
duration elapses and the operation yields its own result; a bare await
never raises a timeout, however long the operation takes. -/
def awaitOp {α : Type} (op : AsyncOp α) : Nat × Except PyError α :=
  (op.duration, op.result)

/-- Semantics of `asyncio.wait_for(op, timeout)`: if the operation takes
longer than the timeout, the caller resumes after `tmo` ticks with
`asyncio.TimeoutError`; otherwise the operation completes normally. -/
def waitFor {α : Type} (tmo : Nat) (op : AsyncOp α) : Nat × Except PyError α :=
  if tmo < op.duration then (tmo, .error .timeoutError) else (op.duration, op.result)

/-- Semantics of `dict(dataframe.iloc[0, :5])`: the first five columns of
the first row, as column-name/value pairs; pandas raises `IndexError` on a
frame with zero rows. -/
def ilocPreview (f : Frame) : Except PyError (List (String × String)) :=
  match f.rows with
  | [] => .error .indexError
  | r :: _ => .ok (List.zip (f.headers.take 5) (r.take 5))

def renderPair (p : String × String) : String :=
  "(" ++ p.1 ++ ", " ++ p.2 ++ ")"

/-- Canonical rendering of the column/value pairs interpolated into the
preview log line (a stand-in for the Python dict repr). -/
def renderPairs (ps : List (String × String)) : String :=
  String.intercalate "; " (ps.map renderPair)

/-- Message of the preview log line, identical in both source files. -/
def previewMsg (pairs : List (String × String)) : String :=
  "Print out first five columns of the first row of the dataframe: " ++ renderPairs pairs

/-- Outcome of running the body of a try-block: the info lines it logged
(in order), the ticks that elapsed inside the Timer scope, the exception it
raised if any, the parsed frame if `pd.read_csv` was reached and
succeeded, and the preview pairs if the preview expression succeeded. -/
structure BodyResult where
  logs : List LogLine
  elapsed : Nat
  err : Option PyError
  parsed : Option Frame
  preview : Option (List (String × String))
deriving DecidableEq

/-- An item is reported successful with a non-empty parsed record set. -/
def parsedNonempty (b : BodyResult) : Bool :=
  match b.parsed with
  | some df => !df.rows.isEmpty
  | none => false

/-- A call returned normally (did not raise). -/
def returnsNormally (r : Except PyError (List LogLine)) : Bool :=
  match r with
  | .ok _ => true
  | .error _ => false

/-- Projection of a body result to its observable per-item outcome:
exception raised, preview produced, and elapsed ticks (log texts elided). -/
def outcomeOf (b : BodyResult) : Option PyError × Option (List (String × String)) × Nat :=
  (b.err, b.preview, b.elapsed)

/-- The module-level url list shared verbatim by both source files. -/
def urls : List String := [
  "https://people.sc.fsu.edu/~jburkardt/data/csv/addresses.csv",
  "https://people.sc.fsu.edu/~jburkardt/data/csv/airtravel.csv",
  "https://people.sc.fsu.edu/~jburkardt/data/csv/biostats.csv",
  "https://people.sc.fsu.edu/~jburkardt/data/csv/cities.csv",
  "https://people.sc.fsu.edu/~jburkardt/data/csv/crash_catalonia.csv",
  "https://people.sc.fsu.edu/~jburkardt/data/csv/deniro.csv",
  "https://people.sc.fsu.edu/~jburkardt/data/csv/example.csv",
  "https://people.sc.fsu.edu/~jburkardt/data/csv/ford_escort.csv",
  "https://people.sc.fsu.edu/~jburkardt/data/csv/faithful.csv",
  "https://people.sc.fsu.edu/~jburkardt/data/csv/freshman_kgs.csv",
  "https://people.sc.fsu.edu/~jburkardt/data/csv/freshman_lbs.csv",
  "https://people.sc.fsu.edu/~jburkardt/data/csv/grades.csv",
  "https://people.sc.fsu.edu/~jburkardt/data/csv/homes.csv",
  "https://people.sc.fsu.edu/~jburkardt/data/csv/hooke.csv",
  "https://people.sc.fsu.edu/~jburkardt/data/csv/hurricanes.csv",
  "https://people.sc.fsu.edu/~jburkardt/data/csv/hw_200.csv",
  "https://people.sc.fsu.edu/~jburkardt/data/csv/hw_25000.csv",
  "https://people.sc.fsu.edu/~jburkardt/data/csv/lead_shot.csv",
  "https://people.sc.fsu.edu/~jburkardt/data/csv/letter_frequency.csv",
  "https://people.sc.fsu.edu/~jburkardt/data/csv/mlb_players.csv",
  "https://people.sc.fsu.edu/~jburkardt/data/csv/mlb_teams_2012.csv",
  "https://people.sc.fsu.edu/~jburkardt/data/csv/news_decline.csv",
  "https://people.sc.fsu.edu/~jburkardt/data/csv/nile.csv",
  "https://people.sc.fsu.edu/~jburkardt/data/csv/oscar_age_female.csv",
  "https://people.sc.fsu.edu/~jburkardt/data/csv/oscar_age_male.csv",
  "https://people.sc.fsu.edu/~jburkardt/data/csv/snakes_count_10.csv",
  "https://people.sc.fsu.edu/~jburkardt/data/csv/snakes_count_100.csv",
  "https://people.sc.fsu.edu/~jburkardt/data/csv/snakes_count_1000.csv",
  "https://people.sc.fsu.edu/~jburkardt/data/csv/snakes_count_10000.csv",
  "https://people.sc.fsu.edu/~jburkardt/data/csv/tally_cab.csv",
  "https://people.sc.fsu.edu/~jburkardt/data/csv/trees.csv",
  "https://people.sc.fsu.edu/~jburkardt/data/csv/zillow.csv"]

/-- The options bag `encoding="utf-8"` both mains pass to parse_csv. -/
def parsingParameters : List (String × String) := [("encoding", "utf-8")]

/-- Template of the whole-run Timer text of parsing_csv_sync.py line 68. -/
def runPat : String := "Normal sequential run -> Entire Run took: "

/-- A line is the whole-run summary timing line of the sequential main. -/
def isRunTimerB : LogLine → Bool
  | .timer m => strStarts m runPat
  | _ => false

namespace AsyncCsv

/-- Message of parsing_csv_async.py line 66. -/
def gettingMsg (pid : Nat) (url : String) : String :=
  "For `parser_id`=" ++ Nat.repr pid ++ ", getting the `url`=" ++ url

/-- Message of parsing_csv_async.py line 69. -/
def startedMsg (pid : Nat) (url : String) : String :=
  "`parser_id`=" ++ Nat.repr pid ++ " has started to parse CSV file for `url`=" ++ url ++ "."

/-- Message of parsing_csv_async.py line 73. -/
def finishedMsg (pid : Nat) (url : String) : String :=
  "`parser_id`=" ++ Nat.repr pid ++ " has finished parsing the CSV file for `url`=" ++ url ++ "."

/-- Rendered Timer text of parsing_csv_async.py line 65, with the elapsed
seconds already formatted. -/
def timerMsg (pid : Nat) (url : String) (fmt : String) : String :=
  "In `parser_id`=" ++ Nat.repr pid ++ ", `url`=" ++ url ++ ", transformation took: " ++ fmt

/-- Message of the `logging.exception` call at parsing_csv_async.py line 76. -/
def errorMsg (url : String) : String :=
  "Error processing `url`=" ++ url

/-- Body of the try-block of parse_csv (parsing_csv_async.py lines 64-73):
log, `await asyncio.wait_for(session.get(url), timeout=5)`,
`await response.text()` (a bare await, no timeout), log, `pd.read_csv`,
`time.sleep(0.5)`, log, preview log. -/
def body (env : Env) (pid : Nat) (url : String) (opts : List (String × String)) : BodyResult :=
  let l1 := LogLine.info (gettingMsg pid url)
  match waitFor timeoutTicks (env.getOp url) with
  | (t1, .error e) =>
    { logs := [l1], elapsed := t1, err := some e, parsed := none, preview := none }
  | (t1, .ok _) =>
    match awaitOp (env.textOp url) with
    | (t2, .error e) =>
      { logs := [l1], elapsed := t1 + t2, err := some e, parsed := none, preview := none }
    | (t2, .ok text) =>
      let l2 := LogLine.info (startedMsg pid url)
      match env.readCsv text opts with
      | .error e =>
        { logs := [l1, l2], elapsed := t1 + t2, err := some e, parsed := none, preview := none }
      | .ok df =>
        let l3 := LogLine.info (finishedMsg pid url)
        match ilocPreview df with
        | .error e =>
          { logs := [l1, l2, l3], elapsed := t1 + t2 + delayTicks, err := some e,
            parsed := some df, preview := none }
        | .ok pairs =>
          { logs := [l1, l2, l3, LogLine.info (previewMsg pairs)],
            elapsed := t1 + t2 + delayTicks, err := none,
            parsed := some df, preview := some pairs }

/-- parse_csv of parsing_csv_async.py lines 63-76, as a Python call that can
in principle raise: the Timer reports the elapsed time when the with-scope
exits, whether or not the body raised (codetiming Timer runs stop() in its
exit handler and does not suppress the exception), and the
`except Exception` clause converts any body exception into a
`logging.exception` record, so the call returns normally. -/
def parse_csv (env : Env) (pid : Nat) (url : String) (opts : List (String × String)) :
    Except PyError (List LogLine) :=
  let b := body env pid url opts
  let tline := LogLine.timer (timerMsg pid url (format4 b.elapsed))
  match b.err with
  | none => .ok (b.logs ++ [tline])
  | some e => .ok (b.logs ++ [tline, LogLine.error (errorMsg url) e])

/-- The lines a parse_csv call emits. -/
def logsOf (env : Env) (pid : Nat) (url : String) (opts : List (String × String)) :
    List LogLine :=
  match parse_csv env pid url opts with
  | .ok ls => ls
  | .error _ => []

/-- Coordinator-level operations of main() (parsing_csv_async.py lines
79-88).  `awaitWorkerExit` is the operation the design prescribes after
cancellation (awaiting each cancelled worker task); it is listed here so
that its absence from the actual trace can be stated. -/
inductive CoordOp where
  | createQueue
  | enqueue (url : String)
  | logQueue
  | acquireSession
  | spawn (w : Nat)
  | awaitJoin
  | cancel (w : Nat)
  | awaitWorkerExit (w : Nat)
  | releaseSession
  | reportRunTime
deriving DecidableEq

/-- Straight-line trace of the coordinator operations main() performs, in
program order: create the queue, put_nowait every url, log the queue,
enter the ClientSession context, create 5 parser tasks, await
url_queue.join(), call cancel() on each task, leave the session context,
and let the whole-run Timer report. -/
def mainOps : List CoordOp :=
  [CoordOp.createQueue] ++ urls.map CoordOp.enqueue
    ++ [CoordOp.logQueue, CoordOp.acquireSession]
    ++ (List.range 5).map CoordOp.spawn ++ [CoordOp.awaitJoin]
    ++ (List.range 5).map CoordOp.cancel
    ++ [CoordOp.releaseSession, CoordOp.reportRunTime]

/-- Number of spawn operations in the coordinator trace. -/
def spawnCount : Nat :=
  (mainOps.filter (fun op => match op with | .spawn _ => true | _ => false)).length

end AsyncCsv

namespace SyncCsv

/-- Message of parsing_csv_sync.py line 57. -/
def startedMsg (url : String) : String :=
  "Starting to parse CSV file for url=" ++ url ++ "."

/-- Message of parsing_csv_sync.py line 61. -/
def parsedMsg (url : String) : String :=
  "CSV file is parsed for url=" ++ url ++ "."

/-- Rendered Timer text of parsing_csv_sync.py line 54. -/
def timerMsg (url : String) (fmt : String) : String :=
  url ++ (" -> For this url, transformation took: " ++ fmt)

/-- Message of the `logging.exception` call at parsing_csv_sync.py line 64. -/
def errorMsg (url : String) : String :=
  "Error processing url " ++ url

/-- Body of the try-block of the sequential parse_csv (parsing_csv_sync.py
lines 53-62): `requests.get(url)` with no timeout (header phase then
payload retrieval, neither guarded), log, `pd.read_csv`, `time.sleep(0.5)`,
log, preview log. -/
def body (env : Env) (url : String) (opts : List (String × String)) : BodyResult :=
  match awaitOp (env.getOp url) with
  | (t1, .error e) =>
    { logs := [], elapsed := t1, err := some e, parsed := none, preview := none }
  | (t1, .ok _) =>
    match awaitOp (env.textOp url) with
    | (t2, .error e) =>
      { logs := [], elapsed := t1 + t2, err := some e, parsed := none, preview := none }
    | (t2, .ok text) =>
      let l1 := LogLine.info (startedMsg url)
      match env.readCsv text opts with
      | .error e =>
        { logs := [l1], elapsed := t1 + t2, err := some e, parsed := none, preview := none }
      | .ok df =>
        let l2 := LogLine.info (parsedMsg url)
        match ilocPreview df with
        | .error e =>
          { logs := [l1, l2], elapsed := t1 + t2 + delayTicks, err := some e,
            parsed := some df, preview := none }
        | .ok pairs =>
          { logs := [l1, l2, LogLine.info (previewMsg pairs)],
            elapsed := t1 + t2 + delayTicks, err := none,
            parsed := some df, preview := some pairs }

/-- parse_csv of parsing_csv_sync.py lines 52-64: Timer report on scope
exit, blanket `except Exception` turning any body exception into a logged
diagnostic. -/
def parse_csv (env : Env) (url : String) (opts : List (String × String)) :
    Except PyError (List LogLine) :=
  let b := body env url opts
  let tline := LogLine.timer (timerMsg url (format4 b.elapsed))
  match b.err with
  | none => .ok (b.logs ++ [tline])
  | some e => .ok (b.logs ++ [tline, LogLine.error (errorMsg url) e])

/-- The lines a sequential parse_csv call emits. -/
def logsOf (env : Env) (url : String) (opts : List (String × String)) : List LogLine :=
  match parse_csv env url opts with
  | .ok ls => ls
  | .error _ => []

/-- Total elapsed ticks of the sequential run: the items run one after the
other inside the whole-run Timer. -/
def totalElapsed (env : Env) : Nat :=
  (urls.map (fun u => (body env u parsingParameters).elapsed)).sum

/-- Output of main() of parsing_csv_sync.py lines 67-70: every url processed
in list order, then the whole-run Timer report. -/
def mainLogs (env : Env) : List LogLine :=
  (urls.map (fun u => logsOf env u parsingParameters)).flatten
    ++ [LogLine.timer (runPat ++ format4 (totalElapsed env))]

end SyncCsv

/-- Environment in which every operation succeeds quickly: headers in 0.1 s,
payload in 0.2 s, parsing to a 2-column 1-row frame. -/
def envOk : Env :=
  { getOp := fun _ => { duration := 1000, result := .ok () },
    textOp := fun _ => { duration := 2000, result := .ok ("a,b\n1,2") },
    readCsv := fun _ _ => .ok { headers := ["a", "b"], rows := [["1", "2"]] } }

/-- Environment in which the request/header phase takes 7 s (beyond the 5 s
timeout) but would succeed; the rest behaves like `envOk`. -/
def envSlowGet : Env :=
  { getOp := fun _ => { duration := 70000, result := .ok () },
    textOp := fun _ => { duration := 2000, result := .ok ("a,b\n1,2") },
    readCsv := fun _ _ => .ok { headers := ["a", "b"], rows := [["1", "2"]] } }

/-- Environment in which the header phase is fast but the payload text
retrieval takes 100 s; everything succeeds. -/
def envSlowText : Env :=
  { getOp := fun _ => { duration := 1000, result := .ok () },
    textOp := fun _ => { duration := 1000000, result := .ok ("a,b\n1,2") },
    readCsv := fun _ _ => .ok { headers := ["a", "b"], rows := [["1", "2"]] } }

/-- Environment in which fetch and parse succeed but the parsed record set
has zero rows, so the preview expression raises IndexError. -/
def envEmptyRows : Env :=
  { getOp := fun _ => { duration := 1000, result := .ok () },
    textOp := fun _ => { duration := 2000, result := .ok ("a,b\n") },
    readCsv := fun _ _ => .ok { headers := ["a", "b"], rows := [] } }

/-- Environment variant with the payload-retrieval duration at `url`
replaced by `d` ticks, the result unchanged. -/
def withTextDuration (env : Env) (url : String) (d : Nat) : Env :=
  { env with
    textOp := fun v =>
      if v = url then { duration := d, result := (env.textOp v).result }
      else env.textOp v }

/-- State of one worker task of parsing_csv_async.py lines 55-60: blocked in
`await queue.get()` (idle) or running parse_csv on a dequeued url. -/
inductive Phase where
  | idle
  | processing (url : String)
deriving DecidableEq

/-- State of the shared asyncio.Queue together with the worker pool:
`pending` is the FIFO buffer, `unfinished` the queue's unfinished-task
counter (incremented by put_nowait, decremented by task_done; join()
returns exactly when it is zero), `delivered` the log of (worker, url)
deliveries performed by `queue.get()`, and `taskDone` the number of
`queue.task_done()` calls so far. -/
structure PoolState where
  pending : List String
  workers : List Phase
  delivered : List (Nat × String)
  taskDone : Nat
  unfinished : Nat
deriving DecidableEq

/-- State after main() created the queue, put_nowait every locator, and
spawned `n` parser tasks, all initially awaiting `queue.get()`. -/
def initState (locs : List String) (n : Nat) : PoolState :=
  { pending := locs, workers := List.replicate n Phase.idle,
    delivered := [], taskDone := 0, unfinished := locs.length }

def isProcessingB : Phase → Bool
  | .processing _ => true
  | .idle => false

/-- Interleaved small-step semantics of the worker pool.  `deliver`: an idle
worker completes `await queue.get()` and receives the head of the FIFO
buffer (the item is removed from the buffer at that moment, so no second
worker can receive it).  `finish`: a worker returns from parse_csv — which
always returns normally — and calls `queue.task_done()`, decrementing the
unfinished counter.  Scheduling between workers is arbitrary. -/
inductive QStep : PoolState → PoolState → Prop
  | deliver (s : PoolState) (w : Nat) (u : String) (rest : List String)
      (hw : s.workers.get? w = some Phase.idle)
      (hp : s.pending = u :: rest) :
      QStep s { pending := rest, workers := s.workers.set w (Phase.processing u),
                delivered := s.delivered ++ [(w, u)], taskDone := s.taskDone,
                unfinished := s.unfinished }
  | finish (s : PoolState) (w : Nat) (u : String)
      (hw : s.workers.get? w = some (Phase.processing u)) :
      QStep s { pending := s.pending, workers := s.workers.set w Phase.idle,
                delivered := s.delivered, taskDone := s.taskDone + 1,
                unfinished := s.unfinished - 1 }

/-- Reachability under arbitrary interleaving of worker steps. -/
def Reaches : PoolState → PoolState → Prop := Relation.ReflTransGen QStep

/-- Inductive invariant of the pool: the unfinished counter counts buffered
plus in-flight items, task_done calls account for the rest, and the
delivered-or-still-buffered urls are exactly the enqueued ones. -/
def PoolInv (locs : List String) (s : PoolState) : Prop :=
  s.unfinished = s.pending.length + s.workers.countP isProcessingB ∧
  s.taskDone + s.unfinished = locs.length ∧
  ∀ u : String, (s.delivered.map Prod.snd).count u + s.pending.count u = locs.count u

theorem countP_set_true_of_false (p : Phase → Bool) {ws : List Phase} {w : Nat} {a : Phase}
    (b : Phase) (h : ws.get? w = some a) (ha : p a = false) (hb : p b = true) :
    (ws.set w b).countP p = ws.countP p + 1 := by
  induction ws generalizing w with
  | nil => simp [List.get?] at h
  | cons x xs ih =>
    cases w with
    | zero =>
      simp [List.get?] at h
      subst h
      simp [List.set, List.countP_cons, ha, hb]
    | succ n =>
      simp only [List.get?] at h
      have hx := ih h
      simp only [List.set, List.countP_cons, hx]
      omega

theorem countP_set_false_of_true (p : Phase → Bool) {ws : List Phase} {w : Nat} {a : Phase}
    (b : Phase) (h : ws.get? w = some a) (ha : p a = true) (hb : p b = false) :
    (ws.set w b).countP p + 1 = ws.countP p := by
  induction ws generalizing w with
  | nil => simp [List.get?] at h
  | cons x xs ih =>
    cases w with
    | zero =>
      simp [List.get?] at h
      subst h
      simp [List.set, List.countP_cons, ha, hb]
    | succ n =>
      simp only [List.get?] at h
      have hx := ih h
      simp only [List.set, List.countP_cons]
      omega

theorem countP_pos_of_get (p : Phase → Bool) {ws : List Phase} {w : Nat} {a : Phase}
    (h : ws.get? w = some a) (ha : p a = true) :
    0 < ws.countP p := by
  induction ws generalizing w with
  | nil => simp [List.get?] at h
  | cons x xs ih =>
    cases w with
    | zero =>
      simp [List.get?] at h
      subst h
      rw [List.countP_cons]
      simp [ha]
    | succ n =>
      simp only [List.get?] at h
      have hx := ih h
      rw [List.countP_cons]
      omega

theorem poolInv_init (locs : List String) (n : Nat) : PoolInv locs (initState locs n) := by
  refine ⟨?_, ?_, ?_⟩
  · simp [initState]
    induction n with
    | zero => simp
    | succ m ih => simp [List.replicate, List.countP_cons, isProcessingB, ih]
  · simp [initState]
  · intro u
    simp [initState]

theorem poolInv_step {locs : List String} {s t : PoolState}
    (hs : PoolInv locs s) (h : QStep s t) : PoolInv locs t := by
  obtain ⟨h1, h2, h3⟩ := hs
  cases h with
  | deliver w u rest hw hp =>
    refine ⟨?_, ?_, ?_⟩
    · show s.unfinished = rest.length + (s.workers.set w (Phase.processing u)).countP isProcessingB
      rw [countP_set_true_of_false isProcessingB (Phase.processing u) hw rfl rfl]
      have hl := h1
      rw [hp] at hl
      simp only [List.length_cons] at hl
      omega
    · exact h2
    · intro v
      show (List.map Prod.snd (s.delivered ++ [(w, u)])).count v + rest.count v = locs.count v
      have hv := h3 v
      rw [hp] at hv
      simp only [List.map_append, List.count_append, List.map_cons, List.map_nil,
        List.count_cons, List.count_nil] at hv ⊢
      omega
  | finish w u hw =>
    have hpos : 0 < s.workers.countP isProcessingB :=
      countP_pos_of_get isProcessingB hw rfl
    refine ⟨?_, ?_, ?_⟩
    · show s.unfinished - 1 = s.pending.length + (s.workers.set w Phase.idle).countP isProcessingB
      have hcount := countP_set_false_of_true isProcessingB Phase.idle hw rfl rfl
      omega
    · show s.taskDone + 1 + (s.unfinished - 1) = locs.length
      omega
    · intro v
      exact h3 v

theorem poolInv_reaches {locs : List String} {n : Nat} {s : PoolState}
    (h : Reaches (initState locs n) s) : PoolInv locs s := by
  induction h with
  | refl => exact poolInv_init locs n
  | tail _ hstep ih => exact poolInv_step ih hstep

/-- Helper for the parse_csv claims: the try-block body only ever emits
info lines, so filtering its log for any predicate that rejects info lines
gives nothing. -/
theorem async_body_logs_filter_nil (p : LogLine → Bool)
    (hp : ∀ m, p (LogLine.info m) = false)
    (env : Env) (pid : Nat) (url : String) (opts : List (String × String)) :
    (AsyncCsv.body env pid url opts).logs.filter p = [] := by
  unfold AsyncCsv.body
  repeat' split
  all_goals simp [List.filter, hp]

/-- Sequential counterpart of the body-logs helper. -/
theorem sync_body_logs_filter_nil (p : LogLine → Bool)
    (hp : ∀ m, p (LogLine.info m) = false)
    (env : Env) (url : String) (opts : List (String × String)) :
    (SyncCsv.body env url opts).logs.filter p = [] := by
  unfold SyncCsv.body
  repeat' split
  all_goals simp [List.filter, hp]

/-- C1: in every interleaved run of the worker pool over any list of N
enqueued locators, whenever the unfinished-task counter has reached zero —
the exact condition under which `queue.join()` returns — exactly N
`task_done` calls have occurred, the buffer is empty, and each enqueued
locator was delivered to exactly one worker exactly once (the multiset of
delivered urls equals the multiset of enqueued urls), regardless of how the
per-item processing went. -/
theorem C1_exactly_once_delivery (locs : List String) (n : Nat) (s : PoolState)
    (hr : Reaches (initState locs n) s) (hd : s.unfinished = 0) :
    s.taskDone = locs.length ∧ s.pending = [] ∧
      ∀ u : String, (s.delivered.map Prod.snd).count u = locs.count u := by
  obtain ⟨h1, h2, h3⟩ := poolInv_reaches hr
  have hlen : s.pending.length = 0 := by omega
  have hpend : s.pending = [] := List.length_eq_zero.mp hlen
  refine ⟨by omega, hpend, ?_⟩
  intro u
  have hv := h3 u
  rw [hpend] at hv
  simpa using hv

/-- Witness for C1: a concrete two-item run with one worker that reaches the
drained state; both locators were delivered once and task_done ran twice. -/
theorem C1_exactly_once_delivery_witness :
    ((({ pending := [], workers := [Phase.idle],
         delivered := [(0, "a"), (0, "b")], taskDone := 2,
         unfinished := 0 } : PoolState).delivered.map Prod.snd).count ("a")
        = (["a", "b"] : List String).count ("a"))
      ∧ ({ pending := [], workers := [Phase.idle],
           delivered := [(0, "a"), (0, "b")], taskDone := 2,
           unfinished := 0 } : PoolState).taskDone
        = (["a", "b"] : List String).length := by
  have hr : Reaches (initState ["a", "b"] 1)
      { pending := [], workers := [Phase.idle],
        delivered := [(0, "a"), (0, "b")], taskDone := 2, unfinished := 0 } := by
    refine Relation.ReflTransGen.head
      (QStep.deliver (initState ["a", "b"] 1) 0 ("a") ["b"] rfl rfl) ?_
    refine Relation.ReflTransGen.head (QStep.finish _ 0 ("a") rfl) ?_
    refine Relation.ReflTransGen.head (QStep.deliver _ 0 ("b") [] rfl rfl) ?_
    refine Relation.ReflTransGen.head (QStep.finish _ 0 ("b") rfl) ?_
    exact Relation.ReflTransGen.refl
  have hmain := C1_exactly_once_delivery ["a", "b"] 1 _ hr rfl
  exact ⟨hmain.2.2 ("a"), hmain.1⟩

/-- C2: for every environment, locator and exception arising in the body of
parse_csv (fetch, payload read, parse, preview), the call returns normally
(the blanket except-clause catches the exception) and a diagnostic log line
for the locator appears in the output; nothing propagates to the worker
loop. -/
theorem C2_parse_csv_never_raises (env : Env) (pid : Nat) (url : String)
    (opts : List (String × String)) :
    returnsNormally (AsyncCsv.parse_csv env pid url opts) = true ∧
      ∀ e : PyError, (AsyncCsv.body env pid url opts).err = some e →
        LogLine.error (AsyncCsv.errorMsg url) e ∈ AsyncCsv.logsOf env pid url opts := by
  constructor
  · simp only [returnsNormally, AsyncCsv.parse_csv]
    cases hb : (AsyncCsv.body env pid url opts).err <;> simp [hb]
  · intro e he
    simp [AsyncCsv.logsOf, AsyncCsv.parse_csv, he]

/-- Witness for C2: a timed-out fetch is caught and logged, and the call
still returns normally. -/
theorem C2_parse_csv_never_raises_witness :
    returnsNormally (AsyncCsv.parse_csv envSlowGet 1 ("u") []) = true ∧
      LogLine.error (AsyncCsv.errorMsg ("u")) PyError.timeoutError
        ∈ AsyncCsv.logsOf envSlowGet 1 ("u") [] := by
  have h := C2_parse_csv_never_raises envSlowGet 1 ("u") []
  exact ⟨h.1, h.2 PyError.timeoutError rfl⟩

/-- Counterexample for C3 as stated: a payload-text retrieval that takes 100
seconds — far beyond the 5-second figure — does not produce a timeout
failure, because `asyncio.wait_for` wraps only `session.get(url)` and the
`await response.text()` on line 68 is a bare await. -/
theorem C3_payload_read_not_timed_counterexample :
    timeoutTicks < (envSlowText.textOp ("u")).duration ∧
      (AsyncCsv.body envSlowText 0 ("u") []).err = none := by
  exact ⟨by decide, rfl⟩

/-- C3 amended: the 5-unit hard timeout covers the request/response-header
phase (`session.get`) — whenever that phase takes longer than 5 units the
item fails with a timeout error — while the payload-text retrieval is not
covered: its duration never influences which error, if any, the item
reports. -/
theorem C3_timeout_covers_header_phase_only :
    (∀ (env : Env) (pid : Nat) (url : String) (opts : List (String × String)),
        timeoutTicks < (env.getOp url).duration →
          (AsyncCsv.body env pid url opts).err = some PyError.timeoutError) ∧
      ∀ (env : Env) (pid : Nat) (url : String) (opts : List (String × String)) (d : Nat),
        (AsyncCsv.body (withTextDuration env url d) pid url opts).err =
          (AsyncCsv.body env pid url opts).err := by
  constructor
  · intro env pid url opts h
    simp [AsyncCsv.body, waitFor, h]
  · intro env pid url opts d
    have hget : (withTextDuration env url d).getOp = env.getOp := rfl
    have htext : (withTextDuration env url d).textOp url =
        { duration := d, result := (env.textOp url).result } := by
      simp [withTextDuration]
    have hread : (withTextDuration env url d).readCsv = env.readCsv := rfl
    simp only [AsyncCsv.body, hget, htext, hread, awaitOp, waitFor]
    by_cases hlt : timeoutTicks < (env.getOp url).duration
    · simp [hlt]
    · simp only [if_neg hlt]
      cases hr1 : (env.getOp url).result with
      | error e => rfl
      | ok _ =>
        dsimp only
        cases hr2 : (env.textOp url).result with
        | error e => rfl
        | ok text =>
          dsimp only
          cases hc : env.readCsv text opts with
          | error e => rfl
          | ok df =>
            dsimp only
            cases hi : ilocPreview df with
            | error e => rfl
            | ok pairs => rfl

/-- Witness for the amended C3: a 7-second header phase times out. -/
theorem C3_timeout_covers_header_phase_only_witness :
    timeoutTicks < (envSlowGet.getOp ("u")).duration ∧
      (AsyncCsv.body envSlowGet 0 ("u") []).err = some PyError.timeoutError :=
  ⟨by decide, C3_timeout_covers_header_phase_only.1 envSlowGet 0 ("u") [] (by decide)⟩

/-- Counterexample for C4 as stated: main() never performs an
await-worker-exit operation for any of the 5 workers — after the cancel
calls on line 88 the session context is left immediately, so the
coordinator does not wait for the worker loops to observe cancellation
before the Shared Network Context is released. -/
theorem C4_no_wait_for_worker_exit_counterexample :
    ¬ ∀ w : Nat, w < 5 → AsyncCsv.CoordOp.awaitWorkerExit w ∈ AsyncCsv.mainOps := by
  intro h
  exact absurd (h 0 (by decide)) (by decide)

/-- C4 amended: after `url_queue.join()` returns (position 40 of the
coordinator trace), main() requests cancellation of each of the 5 workers
(positions 41..45) and then releases the session (position 46) without any
intervening wait for the cancelled worker tasks to exit. -/
theorem C4_cancel_signalled_then_session_released (w : Nat) (hw : w < 5) :
    AsyncCsv.mainOps.get? 40 = some AsyncCsv.CoordOp.awaitJoin ∧
      AsyncCsv.mainOps.get? (41 + w) = some (AsyncCsv.CoordOp.cancel w) ∧
      AsyncCsv.mainOps.get? 46 = some AsyncCsv.CoordOp.releaseSession ∧
      AsyncCsv.CoordOp.awaitWorkerExit w ∉ AsyncCsv.mainOps := by
  interval_cases w <;> exact ⟨by decide, by decide, by decide, by decide⟩

/-- Witness for the amended C4, at worker 0. -/
theorem C4_cancel_signalled_witness :
    AsyncCsv.mainOps.get? 40 = some AsyncCsv.CoordOp.awaitJoin ∧
      AsyncCsv.mainOps.get? (41 + 0) = some (AsyncCsv.CoordOp.cancel 0) ∧
      AsyncCsv.mainOps.get? 46 = some AsyncCsv.CoordOp.releaseSession ∧
      AsyncCsv.CoordOp.awaitWorkerExit 0 ∉ AsyncCsv.mainOps :=
  C4_cancel_signalled_then_session_released 0 (by decide)

/-- Counterexample for C5 as stated: the per-item logic differs between the
variants — a header phase of 7 seconds makes the async item fail with a
timeout while the sequential item (whose `requests.get` has no timeout
argument) succeeds. -/
theorem C5_sync_lacks_timeout_counterexample :
    (AsyncCsv.body envSlowGet 0 ("u") []).err = some PyError.timeoutError ∧
      (SyncCsv.body envSlowGet ("u") []).err = none :=
  ⟨rfl, rfl⟩

/-- C5 amended: the two variants share the parse, fixed delay, preview and
error-swallowing logic, and whenever the header phase completes within the
5-second timeout the per-item outcome (error, preview, elapsed time) of the
sequential variant equals that of the concurrent one; they differ when the
fetch exceeds the timeout (and in log message texts). -/
theorem C5_same_outcome_when_fetch_within_timeout (env : Env) (pid : Nat) (url : String)
    (opts : List (String × String)) (h : (env.getOp url).duration ≤ timeoutTicks) :
    outcomeOf (AsyncCsv.body env pid url opts) = outcomeOf (SyncCsv.body env url opts) := by
  have hnlt : ¬ timeoutTicks < (env.getOp url).duration := not_lt.mpr h
  simp only [AsyncCsv.body, SyncCsv.body, waitFor, awaitOp, if_neg hnlt]
  cases hr1 : (env.getOp url).result with
  | error e => rfl
  | ok _ =>
    dsimp only
    cases hr2 : (env.textOp url).result with
    | error e => rfl
    | ok text =>
      dsimp only
      cases hc : env.readCsv text opts with
      | error e => rfl
      | ok df =>
        dsimp only
        cases hi : ilocPreview df with
        | error e => rfl
        | ok pairs => rfl

/-- Witness for the amended C5: identical outcomes on a fast environment. -/
theorem C5_same_outcome_witness :
    (envOk.getOp ("u")).duration ≤ timeoutTicks ∧
      outcomeOf (AsyncCsv.body envOk 3 ("u") []) = outcomeOf (SyncCsv.body envOk ("u") []) :=
  ⟨by decide, C5_same_outcome_when_fetch_within_timeout envOk 3 ("u") [] (by decide)⟩

/-- Counterexample for C6 as stated: the failure diagnostics produced for
the same failing locator by two different workers (ids 7 and 8) are
identical — the `logging.exception` message on line 76 interpolates only
the url, so the diagnostic cannot carry the identity of the worker that
processed the item. -/
theorem C6_error_line_lacks_worker_identity_counterexample :
    (AsyncCsv.logsOf envSlowGet 7 ("u") []).filter isErrorB
        = (AsyncCsv.logsOf envSlowGet 8 ("u") []).filter isErrorB ∧
      (AsyncCsv.logsOf envSlowGet 7 ("u") []).filter isErrorB ≠ [] := by
  exact ⟨rfl, by decide⟩

/-- C6 amended: for every fetch/parse failure the logged diagnostic is
exactly one error record carrying the locator (and the caught cause as the
traceback) but not the worker identity; the worker identity appears in the
per-item Timer line, which is also emitted for the failed item. -/
theorem C6_error_diagnostic_carries_locator_not_worker (env : Env) (pid : Nat) (url : String)
    (opts : List (String × String)) (e : PyError)
    (he : (AsyncCsv.body env pid url opts).err = some e) :
    (AsyncCsv.logsOf env pid url opts).filter isErrorB
        = [LogLine.error (AsyncCsv.errorMsg url) e] ∧
      LogLine.timer
          (AsyncCsv.timerMsg pid url (format4 (AsyncCsv.body env pid url opts).elapsed))
        ∈ AsyncCsv.logsOf env pid url opts := by
  have hnil := async_body_logs_filter_nil isErrorB (fun m => rfl) env pid url opts
  constructor
  · simp [AsyncCsv.logsOf, AsyncCsv.parse_csv, he, List.filter_append, hnil, isErrorB]
  · simp [AsyncCsv.logsOf, AsyncCsv.parse_csv, he]

/-- Witness for the amended C6. -/
theorem C6_error_diagnostic_witness :
    (AsyncCsv.body envSlowGet 2 ("u") []).err = some PyError.timeoutError ∧
      (AsyncCsv.logsOf envSlowGet 2 ("u") []).filter isErrorB
        = [LogLine.error (AsyncCsv.errorMsg ("u")) PyError.timeoutError] :=
  ⟨rfl, (C6_error_diagnostic_carries_locator_not_worker envSlowGet 2 ("u") []
      PyError.timeoutError rfl).1⟩

/-- Counterexample for C7 as stated: the per-fetch timeout is not exposed
as a configuration parameter — no choice of the options bag (the only
parameterisation parse_csv accepts) avoids the hard-coded 5-second timeout
when the header phase takes 7 seconds. -/
theorem C7_timeout_not_configurable_counterexample :
    ¬ ∃ opts : List (String × String),
        (AsyncCsv.body envSlowGet 0 ("u") opts).err ≠ some PyError.timeoutError := by
  rintro ⟨opts, h⟩
  exact h rfl

/-- C7 amended: the worker pool size (5), the per-fetch timeout (5 s) and
the simulated processing delay (0.5 s) are hard-coded literals, not
configuration: main() always spawns exactly 5 workers, the 7-second fetch
times out under every options bag, and every successful item spends exactly
the fixed 0.5-second delay on top of its fetch durations. -/
theorem C7_pool_size_timeout_delay_hardcoded (env : Env) (pid : Nat) (url : String)
    (opts : List (String × String)) :
    AsyncCsv.spawnCount = 5 ∧
      (AsyncCsv.body envSlowGet pid ("u") opts).err = some PyError.timeoutError ∧
      ((AsyncCsv.body env pid url opts).err = none →
        (AsyncCsv.body env pid url opts).elapsed
          = (env.getOp url).duration + (env.textOp url).duration + delayTicks) := by
  refine ⟨by decide, rfl, ?_⟩
  intro hnone
  by_cases hlt : timeoutTicks < (env.getOp url).duration
  · exfalso
    have hto : (AsyncCsv.body env pid url opts).err = some PyError.timeoutError := by
      simp [AsyncCsv.body, waitFor, hlt]
    rw [hto] at hnone
    cases hnone
  · revert hnone
    simp only [AsyncCsv.body, waitFor, awaitOp, if_neg hlt]
    cases hr1 : (env.getOp url).result with
    | error e => intro hnone; cases hnone
    | ok _ =>
      dsimp only
      cases hr2 : (env.textOp url).result with
      | error e => intro hnone; cases hnone
      | ok text =>
        dsimp only
        cases hc : env.readCsv text opts with
        | error e => intro hnone; cases hnone
        | ok df =>
          dsimp only
          cases hi : ilocPreview df with
          | error e => intro hnone; cases hnone
          | ok pairs => intro hnone; rfl

/-- Witness for the amended C7: on the fast environment the successful item
takes its two fetch phases plus exactly the fixed half-second delay. -/
theorem C7_hardcoded_witness :
    (AsyncCsv.body envOk 0 ("u") []).err = none ∧
      (AsyncCsv.body envOk 0 ("u") []).elapsed
        = (envOk.getOp ("u")).duration + (envOk.textOp ("u")).duration + delayTicks :=
  ⟨rfl, (C7_pool_size_timeout_delay_hardcoded envOk 0 ("u") []).2.2 rfl⟩

/-- C9: for every failing item, in both variants, the Timer scope encloses
the failing steps, so the output is exactly the info lines logged before
the failure, then the per-item timing line, then the error diagnostic — the
timing line is emitted even on the exceptional exit, and before the error
is logged. -/
theorem C9_timing_line_emitted_on_failure (env : Env) (pid : Nat) (url : String)
    (opts : List (String × String)) (e : PyError)
    (he : (AsyncCsv.body env pid url opts).err = some e) :
    AsyncCsv.logsOf env pid url opts
        = (AsyncCsv.body env pid url opts).logs
          ++ [LogLine.timer (AsyncCsv.timerMsg pid url
                (format4 (AsyncCsv.body env pid url opts).elapsed)),
              LogLine.error (AsyncCsv.errorMsg url) e] ∧
      ∀ e2 : PyError, (SyncCsv.body env url opts).err = some e2 →
        SyncCsv.logsOf env url opts
          = (SyncCsv.body env url opts).logs
            ++ [LogLine.timer (SyncCsv.timerMsg url
                  (format4 (SyncCsv.body env url opts).elapsed)),
                LogLine.error (SyncCsv.errorMsg url) e2] := by
  constructor
  · simp [AsyncCsv.logsOf, AsyncCsv.parse_csv, he]
  · intro e2 he2
    simp [SyncCsv.logsOf, SyncCsv.parse_csv, he2]

/-- Witness for C9: the timed-out item still gets its timing line, right
before the error diagnostic. -/
theorem C9_timing_line_witness :
    AsyncCsv.logsOf envSlowGet 4 ("u") []
      = (AsyncCsv.body envSlowGet 4 ("u") []).logs
        ++ [LogLine.timer (AsyncCsv.timerMsg 4 ("u")
              (format4 (AsyncCsv.body envSlowGet 4 ("u") []).elapsed)),
            LogLine.error (AsyncCsv.errorMsg ("u")) PyError.timeoutError] :=
  (C9_timing_line_emitted_on_failure envSlowGet 4 ("u") [] PyError.timeoutError rfl).1

/-- C10: a payload whose parsed record set has zero rows makes the first-row
preview raise IndexError, so the item is reported as a logged failure with
no preview (and, the body returning through the catch-all, the worker still
marks it done); in general an item succeeds only if its parsed record set
is non-empty. -/
theorem C10_empty_recordset_item_fails_preview (env : Env) (pid : Nat) (url : String)
    (opts : List (String × String)) :
    ((AsyncCsv.body envEmptyRows 0 ("u") []).err = some PyError.indexError ∧
      LogLine.error (AsyncCsv.errorMsg ("u")) PyError.indexError
        ∈ AsyncCsv.logsOf envEmptyRows 0 ("u") [] ∧
      (AsyncCsv.body envEmptyRows 0 ("u") []).preview = none) ∧
      ((AsyncCsv.body env pid url opts).err = none →
        parsedNonempty (AsyncCsv.body env pid url opts) = true) := by
  refine ⟨⟨rfl, by decide, rfl⟩, ?_⟩
  by_cases hlt : timeoutTicks < (env.getOp url).duration
  · intro hnone
    exfalso
    have hto : (AsyncCsv.body env pid url opts).err = some PyError.timeoutError := by
      simp [AsyncCsv.body, waitFor, hlt]
    rw [hto] at hnone
    cases hnone
  · simp only [AsyncCsv.body, waitFor, awaitOp, if_neg hlt]
    cases hr1 : (env.getOp url).result with
    | error e => intro hnone; cases hnone
    | ok _ =>
      dsimp only
      cases hr2 : (env.textOp url).result with
      | error e => intro hnone; cases hnone
      | ok text =>
        dsimp only
        cases hc : env.readCsv text opts with
        | error e => intro hnone; cases hnone
        | ok df =>
          dsimp only
          cases hi : ilocPreview df with
          | error e => intro hnone; cases hnone
          | ok pairs =>
            intro hnone
            cases hrows : df.rows with
            | nil => simp [ilocPreview, hrows] at hi
            | cons r rs => simp [parsedNonempty, hrows]

/-- Witness for C10: a successful item indeed has a non-empty record set. -/
theorem C10_success_requires_rows_witness :
    (AsyncCsv.body envOk 1 ("u") []).err = none ∧
      parsedNonempty (AsyncCsv.body envOk 1 ("u") []) = true :=
  ⟨rfl, (C10_empty_recordset_item_fails_preview envOk 1 ("u") []).2 rfl⟩

/-- A list is a Boolean prefix of itself followed by anything. -/
theorem listPre_self_append {α : Type} [BEq α] [LawfulBEq α] (l r : List α) :
    List.isPrefixOf l (l ++ r) = true := by
  induction l with
  | nil => simp [List.isPrefixOf]
  | cons a as ih => simp [List.isPrefixOf, ih]

/-- A rendered line that begins with a template is recognised as starting
with it. -/
theorem strStarts_append_self (p r : String) : strStarts (p ++ r) p = true := by
  unfold strStarts
  rw [String.data_append]
  exact listPre_self_append p.data r.data

/-- A rendered line whose first character differs from the template's first
character does not start with the template. -/
theorem strStarts_append_false (u p r : String) (h : firstCharNe u p = true) :
    strStarts (u ++ r) p = false := by
  unfold strStarts
  rw [String.data_append]
  unfold firstCharNe at h
  cases hu : u.data with
  | nil => rw [hu] at h; cases p.data <;> simp at h
  | cons c cs =>
    cases hp : p.data with
    | nil => rw [hu, hp] at h; simp at h
    | cons d ds =>
      rw [hu, hp] at h
      simp only [Bool.not_eq_eq_eq_not, Bool.not_true] at h
      simp [List.isPrefixOf, h]

/-- No per-item line of the sequential variant is the whole-run summary
line: the body logs only info lines, the per-item Timer text begins with
the url (whose first character differs from the run template's), and the
error record is not a timer line. -/
theorem sync_logsOf_countP_runTimer_zero (env : Env) (u : String)
    (opts : List (String × String)) (hu : firstCharNe u runPat = true) :
    (SyncCsv.logsOf env u opts).countP isRunTimerB = 0 := by
  have hbody : (SyncCsv.body env u opts).logs.filter isRunTimerB = [] :=
    sync_body_logs_filter_nil isRunTimerB (fun m => rfl) env u opts
  have hbl : (SyncCsv.body env u opts).logs.countP isRunTimerB = 0 := by
    rw [List.countP_eq_length_filter, hbody]
    rfl
  have htimer : ∀ fmt, isRunTimerB (LogLine.timer (SyncCsv.timerMsg u fmt)) = false := by
    intro fmt
    unfold isRunTimerB SyncCsv.timerMsg
    exact strStarts_append_false u runPat _ hu
  unfold SyncCsv.logsOf SyncCsv.parse_csv
  dsimp only
  cases hb : (SyncCsv.body env u opts).err with
  | none =>
    dsimp only
    rw [List.countP_append, hbl]
    simp [List.countP_cons, htimer]
  | some e =>
    dsimp only
    rw [List.countP_append, hbl]
    simp only [List.countP_cons, htimer, isRunTimerB, List.countP_nil]
    unfold SyncCsv.timerMsg
    simp [strStarts_append_false u runPat _ hu]

/-- Flattening lists none of which contains a matching element gives a
matchless list. -/
theorem countP_flatten_zero {α : Type} (p : α → Bool) (L : List (List α))
    (h : ∀ l ∈ L, l.countP p = 0) : L.flatten.countP p = 0 := by
  induction L with
  | nil => rfl
  | cons x xs ih =>
    rw [List.flatten_cons, List.countP_append, h x (by simp)]
    rw [ih (fun l hl => h l (by simp [hl]))]

/-- Counterexample for C8 as stated: in a concrete successful async run the
unique per-item timing line does not have the claimed `<label> -> took:`
shape — the async Timer text contains no arrow before `took:` (it reads
`In parser_id=.., url=.., transformation took: ..`). -/
theorem C8_item_timer_line_not_arrow_took_counterexample :
    (AsyncCsv.logsOf envOk 0 ("u") []).countP isTimerB = 1 ∧
      (AsyncCsv.logsOf envOk 0 ("u") []).countP
          (fun l => isTimerB l && strHasSub (msgOf l) (" -> took: ")) = 0 := by
  exact ⟨by decide, by decide⟩

/-- C8 amended: each item emits exactly one timing line, of the shape
`<label> took: <seconds with exactly 4 decimals>`; a preview line with the
first five fields of the first parsed row is emitted for every successful
item; and the sequential main emits exactly one whole-run summary line
(`.. -> Entire Run took: ..`), the async coordinator likewise performing
exactly one whole-run Timer report. -/
theorem C8_log_output_shape (env : Env) (pid : Nat) (url : String)
    (opts : List (String × String)) (t : Nat) :
    (AsyncCsv.logsOf env pid url opts).countP isTimerB = 1 ∧
      LogLine.timer
          (AsyncCsv.timerMsg pid url (format4 (AsyncCsv.body env pid url opts).elapsed))
        ∈ AsyncCsv.logsOf env pid url opts ∧
      (pad4 (t % ticksPerSecond)).length = 4 ∧
      (∀ pairs, (AsyncCsv.body env pid url opts).preview = some pairs →
        LogLine.info (previewMsg pairs) ∈ AsyncCsv.logsOf env pid url opts) ∧
      (SyncCsv.mainLogs env).countP isRunTimerB = 1 ∧
      AsyncCsv.mainOps.countP
          (fun op => match op with | .reportRunTime => true | _ => false) = 1 := by
  have hbl : (AsyncCsv.body env pid url opts).logs.countP isTimerB = 0 := by
    rw [List.countP_eq_length_filter,
      async_body_logs_filter_nil isTimerB (fun m => rfl) env pid url opts]
    rfl
  refine ⟨?_, ?_, rfl, ?_, ?_, by decide⟩
  · unfold AsyncCsv.logsOf AsyncCsv.parse_csv
    dsimp only
    cases hb : (AsyncCsv.body env pid url opts).err with
    | none =>
      dsimp only
      rw [List.countP_append, hbl]
      simp [List.countP_cons, isTimerB]
    | some e =>
      dsimp only
      rw [List.countP_append, hbl]
      simp [List.countP_cons, isTimerB]
  · unfold AsyncCsv.logsOf AsyncCsv.parse_csv
    dsimp only
    cases hb : (AsyncCsv.body env pid url opts).err with
    | none => dsimp only; simp
    | some e => dsimp only; simp
  · intro pairs
    by_cases hlt : timeoutTicks < (env.getOp url).duration
    · intro hp
      exfalso
      have hnone : (AsyncCsv.body env pid url opts).preview = none := by
        simp [AsyncCsv.body, waitFor, hlt]
      rw [hnone] at hp
      cases hp
    · simp only [AsyncCsv.logsOf, AsyncCsv.parse_csv, AsyncCsv.body, waitFor, awaitOp,
        if_neg hlt]
      cases hr1 : (env.getOp url).result with
      | error e => intro hp; simp at hp
      | ok _ =>
        dsimp only
        cases hr2 : (env.textOp url).result with
        | error e => intro hp; simp at hp
        | ok text =>
          dsimp only
          cases hc : env.readCsv text opts with
          | error e => intro hp; simp at hp
          | ok df =>
            dsimp only
            cases hi : ilocPreview df with
            | error e => intro hp; simp at hp
            | ok pairs0 =>
              intro hp
              simp only [Option.some.injEq] at hp
              subst hp
              simp
  · have hall : urls.all (fun u => firstCharNe u runPat) = true := by decide
    have hmem : ∀ l ∈ urls.map (fun u => SyncCsv.logsOf env u parsingParameters),
        l.countP isRunTimerB = 0 := by
      intro l hl
      rcases List.mem_map.mp hl with ⟨u, hu, rfl⟩
      exact sync_logsOf_countP_runTimer_zero env u parsingParameters
        (List.all_eq_true.mp hall u hu)
    unfold SyncCsv.mainLogs
    rw [List.countP_append, countP_flatten_zero _ _ hmem]
    have hrun : isRunTimerB (LogLine.timer (runPat ++ format4 (SyncCsv.totalElapsed env)))
        = true := by
      unfold isRunTimerB
      exact strStarts_append_self runPat _
    simp [List.countP_cons, hrun]

/-- Witness for the amended C8 on the fast environment. -/
theorem C8_log_output_shape_witness :
    (AsyncCsv.logsOf envOk 2 ("u") []).countP isTimerB = 1 ∧
      (pad4 (12345 % ticksPerSecond)).length = 4 ∧
      LogLine.info (previewMsg [("a", "1"), ("b", "2")]) ∈ AsyncCsv.logsOf envOk 2 ("u") [] ∧
      (SyncCsv.mainLogs envOk).countP isRunTimerB = 1 :=
  ⟨(C8_log_output_shape envOk 2 ("u") [] 12345).1,
    (C8_log_output_shape envOk 2 ("u") [] 12345).2.2.1,
    (C8_log_output_shape envOk 2 ("u") [] 12345).2.2.2.1 [("a", "1"), ("b", "2")] rfl,
    (C8_log_output_shape envOk 2 ("u") [] 12345).2.2.2.2.1⟩
